import Mathlib

/-!
Verification of the bouncing-ball trajectory core in src/simulation.ts.

Two embeddings are used:
* an exact real-number semantics (type Ball over ℝ), the main model, in which
  every arithmetic step of the source is mirrored over the reals; and
* a NaN-aware semantics (namespace JsSem, numbers as Option ℝ where none
  stands for a non-finite JS value), used for the claims about NaN inputs
  and the division-by-zero path, where the real model is not faithful.
-/

open scoped Classical

noncomputable section

/-- A ball, the 4-tuple of the source with named fields:
the source destructures it as x, y, x underscore, y underscore. -/
structure Ball where
  x : ℝ
  y : ℝ
  vx : ℝ
  vy : ℝ

/-- Constant COEFFICIENT_OF_RESTITUTION = 0.5 from the source. -/
def COEFFICIENT_OF_RESTITUTION : ℝ := 0.5

/-- Constant GRAVITY = -1000 from the source. -/
def GRAVITY : ℝ := -1000

/-- timeToImpact from the source: the expression
(-vy - sqrt (vy * vy - 2 * GRAVITY * y)) / GRAVITY. -/
def timeToImpact (b : Ball) : ℝ :=
  (-b.vy - Real.sqrt (b.vy * b.vy - 2 * GRAVITY * b.y)) / GRAVITY

/-- flightTimeThisBounce from the source: 2 * reboundVelocity / -GRAVITY. -/
def flightTimeThisBounce (reboundVelocity : ℝ) : ℝ :=
  2 * reboundVelocity / -GRAVITY

/-- timeToStillness from the source:
flightTimeThisBounce v * (1 + r / (1 - r)). -/
def timeToStillness (reboundVelocity : ℝ) : ℝ :=
  flightTimeThisBounce reboundVelocity *
    (1 + COEFFICIENT_OF_RESTITUTION / (1 - COEFFICIENT_OF_RESTITUTION))

/-- timeForNBounces from the source.  The bounce count is an integer (it is
produced by Math.floor in the only internal caller); Math.pow with an integer
exponent is zpow.  Note: the code computes
flightTimeThisBounce v * (1 - r) ^ bounces / (1 - r), with the whole base
(1 - r) raised to the power, exactly as the source line does. -/
def timeForNBounces (reboundVelocity : ℝ) (bounces : ℤ) : ℝ :=
  if bounces = 0 then 0
  else
    flightTimeThisBounce reboundVelocity *
      (1 - COEFFICIENT_OF_RESTITUTION) ^ bounces /
      (1 - COEFFICIENT_OF_RESTITUTION)

/-- numberOfBouncesInPeriod from the source: Math.floor of
log (1 - (1 - r) * period / flightTimeThisBounce v) / log r. -/
def numberOfBouncesInPeriod (reboundVelocity period : ℝ) : ℤ :=
  ⌊Real.log (1 - (1 - COEFFICIENT_OF_RESTITUTION) * period /
      flightTimeThisBounce reboundVelocity) /
    Real.log COEFFICIENT_OF_RESTITUTION⌋

/-- simulateWithoutImpacts from the source: exact free-fall kinematics. -/
def simulateWithoutImpacts (b : Ball) (seconds : ℝ) : Ball :=
  { x := b.x + b.vx * seconds
    y := b.y + b.vy * seconds + 0.5 * GRAVITY * seconds * seconds
    vx := b.vx
    vy := b.vy + GRAVITY * seconds }

/-- simulateAfterImpact from the source: given the ball just after an impact
(vy is the rebound velocity), either settle to rest, or skip the bounces that
fit in the period and free-fall for the remainder. -/
def simulateAfterImpact (b : Ball) (seconds : ℝ) : Ball :=
  let reboundVelocity := b.vy
  if timeToStillness reboundVelocity < seconds then
    { x := b.x + b.vx * seconds, y := 0, vx := b.vx, vy := 0 }
  else
    let bounces := numberOfBouncesInPeriod reboundVelocity seconds
    let bounceTime := timeForNBounces reboundVelocity bounces
    simulateWithoutImpacts
      { x := b.x + b.vx * bounceTime
        y := 0
        vx := b.vx
        vy := reboundVelocity * COEFFICIENT_OF_RESTITUTION ^ bounces }
      (seconds - bounceTime)

/-- simulateSingleBall from the source. -/
def simulateSingleBall (b : Ball) (seconds : ℝ) : Ball :=
  let tti := timeToImpact b
  if tti > seconds then
    simulateWithoutImpacts b seconds
  else
    let b1 := simulateWithoutImpacts b tti
    simulateAfterImpact
      { x := b1.x, y := b1.y, vx := b1.vx
        vy := -COEFFICIENT_OF_RESTITUTION * b1.vy }
      (seconds - tti)

/-- simulateManyBalls from the source. -/
def simulateManyBalls (balls : List Ball) (seconds : ℝ) : List Ball :=
  balls.map (fun b => simulateSingleBall b seconds)

namespace JsSem

/-- A JS number: some x is the finite value x, none is a non-finite value
(NaN, or an infinity).  The model conflates NaN with the infinities; on every
operation path exercised by the theorems below the only non-finite value that
ever arises is NaN (the sole division by zero that occurs is 0 / 0). -/
abbrev Num := Option ℝ

/-- JS addition: NaN-absorbing. -/
def add : Num → Num → Num
  | some a, some b => some (a + b)
  | _, _ => none

/-- JS subtraction: NaN-absorbing. -/
def sub : Num → Num → Num
  | some a, some b => some (a - b)
  | _, _ => none

/-- JS multiplication: NaN-absorbing (0 * NaN is NaN in JS). -/
def mul : Num → Num → Num
  | some a, some b => some (a * b)
  | _, _ => none

/-- JS negation. -/
def neg : Num → Num
  | some a => some (-a)
  | none => none

/-- JS division: a finite value divided by 0 is non-finite (0 / 0 is NaN,
otherwise an infinity), and any non-finite operand gives a non-finite
result on the paths used here. -/
def div : Num → Num → Num
  | some a, some b => if b = 0 then none else some (a / b)
  | _, _ => none

/-- JS Math.sqrt: NaN on negative or NaN input. -/
def sqrt : Num → Num
  | some a => if a < 0 then none else some (Real.sqrt a)
  | none => none

/-- JS Math.log: NaN on negative or NaN input, negative infinity at 0. -/
def log : Num → Num
  | some a => if a ≤ 0 then none else some (Real.log a)
  | none => none

/-- JS Math.pow: NaN exponent gives NaN (even for base NaN or 1), except
that exponent 0 gives 1; positive base with finite exponent is real
exponentiation.  Negative bases (never used by the source: both call sites
pass the base 0.5) are approximated as NaN. -/
def pow : Num → Num → Num
  | _, none => none
  | none, some b => if b = 0 then some 1 else none
  | some a, some b =>
      if 0 < a then some (Real.rpow a b)
      else if a = 0 then (if b = 0 then some 1 else if 0 < b then some 0 else none)
      else none

/-- JS Math.floor: NaN on a non-finite input. -/
def floor : Num → Num
  | some a => some ((⌊a⌋ : ℤ) : ℝ)
  | none => none

/-- JS comparison a < b: false whenever an operand is NaN. -/
def lt : Num → Num → Prop
  | some a, some b => a < b
  | _, _ => False

/-- JS strict equality on numbers: false whenever an operand is NaN. -/
def eqNum : Num → Num → Prop
  | some a, some b => a = b
  | _, _ => False

/-- The ball with JS-number components. -/
structure Ball where
  x : Num
  y : Num
  vx : Num
  vy : Num

/-- timeToImpact from the source, under the NaN-aware semantics. -/
def timeToImpact (b : Ball) : Num :=
  div
    (sub (neg b.vy)
      (sqrt (sub (mul b.vy b.vy) (mul (mul (some 2) (some GRAVITY)) b.y))))
    (some GRAVITY)

/-- flightTimeThisBounce from the source, under the NaN-aware semantics. -/
def flightTimeThisBounce (reboundVelocity : Num) : Num :=
  div (mul (some 2) reboundVelocity) (some (-GRAVITY))

/-- timeToStillness from the source, under the NaN-aware semantics (the
second factor is a finite constant computed from the restitution). -/
def timeToStillness (reboundVelocity : Num) : Num :=
  mul (flightTimeThisBounce reboundVelocity)
    (some (1 + COEFFICIENT_OF_RESTITUTION / (1 - COEFFICIENT_OF_RESTITUTION)))

/-- timeForNBounces from the source, under the NaN-aware semantics. -/
def timeForNBounces (reboundVelocity bounces : Num) : Num :=
  if eqNum bounces (some 0) then some 0
  else
    div
      (mul (flightTimeThisBounce reboundVelocity)
        (pow (some (1 - COEFFICIENT_OF_RESTITUTION)) bounces))
      (some (1 - COEFFICIENT_OF_RESTITUTION))

/-- numberOfBouncesInPeriod from the source, under the NaN-aware semantics. -/
def numberOfBouncesInPeriod (reboundVelocity period : Num) : Num :=
  floor
    (div
      (log (sub (some 1)
        (div (mul (some (1 - COEFFICIENT_OF_RESTITUTION)) period)
          (flightTimeThisBounce reboundVelocity))))
      (log (some COEFFICIENT_OF_RESTITUTION)))

/-- simulateWithoutImpacts from the source, under the NaN-aware semantics. -/
def simulateWithoutImpacts (b : Ball) (seconds : Num) : Ball :=
  { x := add b.x (mul b.vx seconds)
    y := add (add b.y (mul b.vy seconds))
      (mul (mul (mul (some 0.5) (some GRAVITY)) seconds) seconds)
    vx := b.vx
    vy := add b.vy (mul (some GRAVITY) seconds) }

/-- simulateAfterImpact from the source, under the NaN-aware semantics. -/
def simulateAfterImpact (b : Ball) (seconds : Num) : Ball :=
  let reboundVelocity := b.vy
  if lt (timeToStillness reboundVelocity) seconds then
    { x := add b.x (mul b.vx seconds), y := some 0, vx := b.vx, vy := some 0 }
  else
    let bounces := numberOfBouncesInPeriod reboundVelocity seconds
    let bounceTime := timeForNBounces reboundVelocity bounces
    simulateWithoutImpacts
      { x := add b.x (mul b.vx bounceTime)
        y := some 0
        vx := b.vx
        vy := mul reboundVelocity (pow (some COEFFICIENT_OF_RESTITUTION) bounces) }
      (sub seconds bounceTime)

/-- simulateSingleBall from the source, under the NaN-aware semantics
(tti is greater than seconds in JS exactly when lt seconds tti holds, both
being false if either operand is NaN). -/
def simulateSingleBall (b : Ball) (seconds : Num) : Ball :=
  let tti := timeToImpact b
  if lt seconds tti then
    simulateWithoutImpacts b seconds
  else
    let b1 := simulateWithoutImpacts b tti
    simulateAfterImpact
      { x := b1.x, y := b1.y, vx := b1.vx
        vy := mul (some (-COEFFICIENT_OF_RESTITUTION)) b1.vy }
      (sub seconds tti)

end JsSem

/-- The cumulative elapsed time through exactly n bounces as the spec states
it: the finite geometric sum flightTimeThisBounce v * (1 - r ^ n) / (1 - r).
This is the spec-side formula, kept separate from timeForNBounces so the two
can be compared. -/
def specCumulativeBounceTime (reboundVelocity : ℝ) (n : ℕ) : ℝ :=
  flightTimeThisBounce reboundVelocity *
    (1 - COEFFICIENT_OF_RESTITUTION ^ n) / (1 - COEFFICIENT_OF_RESTITUTION)

end

/-- Helper: the square root of 4000000. -/
lemma sqrt_four_million : Real.sqrt 4000000 = 2000 := by
  rw [show (4000000 : ℝ) = 2000 ^ 2 by norm_num]
  exact Real.sqrt_sq (by norm_num)

/-- Helper: flightTimeThisBounce evaluates to v / 500. -/
lemma flightTimeThisBounce_eq (v : ℝ) : flightTimeThisBounce v = v / 500 := by
  unfold flightTimeThisBounce GRAVITY
  ring

/-- Helper: timeToStillness evaluates to v / 250. -/
lemma timeToStillness_eq (v : ℝ) : timeToStillness v = v / 250 := by
  unfold timeToStillness COEFFICIENT_OF_RESTITUTION
  rw [flightTimeThisBounce_eq]
  norm_num
  ring

/-- Helper: a ball dropped from rest at height 2000 impacts after 2 seconds. -/
lemma timeToImpact_drop : timeToImpact ⟨0, 2000, 0, 0⟩ = 2 := by
  unfold timeToImpact GRAVITY
  norm_num [sqrt_four_million]

/-- Helper: a ball launched from the floor at velocity 2000 lands after 4
seconds. -/
lemma timeToImpact_launch : timeToImpact ⟨0, 0, 0, 2000⟩ = 4 := by
  unfold timeToImpact GRAVITY
  norm_num [sqrt_four_million]

/-- Helper: log of one half is negative. -/
lemma log_half_neg : Real.log (1 / 2) < 0 :=
  Real.log_neg (by norm_num) (by norm_num)

/-- Helper: the central characterization connecting numberOfBouncesInPeriod
with the true cumulative bounce time.  For a positive rebound velocity and a
period strictly below the settling time, the spec-side cumulative time of m
bounces fits in the period exactly when m is at most the computed count. -/
lemma specCumulativeBounceTime_le_iff (v p : ℝ) (hv : 0 < v)
    (hps : p < timeToStillness v) (m : ℕ) :
    specCumulativeBounceTime v m ≤ p ↔ (m : ℤ) ≤ numberOfBouncesInPeriod v p := by
  have hF : flightTimeThisBounce v = v / 500 := flightTimeThisBounce_eq v
  have hFpos : (0 : ℝ) < v / 500 := by positivity
  rw [timeToStillness_eq] at hps
  have hu0 : (0 : ℝ) <
      1 - (1 - COEFFICIENT_OF_RESTITUTION) * p / flightTimeThisBounce v := by
    rw [hF]
    unfold COEFFICIENT_OF_RESTITUTION
    have h1 : (1 - (0.5 : ℝ)) * p / (v / 500) < 1 := by
      rw [div_lt_one hFpos]
      nlinarith
    linarith
  have hq : (0 : ℝ) < COEFFICIENT_OF_RESTITUTION ^ m := by
    unfold COEFFICIENT_OF_RESTITUTION; positivity
  have hlogr : Real.log COEFFICIENT_OF_RESTITUTION < 0 := by
    unfold COEFFICIENT_OF_RESTITUTION
    exact Real.log_neg (by norm_num) (by norm_num)
  have harith : specCumulativeBounceTime v m ≤ p ↔
      1 - (1 - COEFFICIENT_OF_RESTITUTION) * p / flightTimeThisBounce v ≤
        COEFFICIENT_OF_RESTITUTION ^ m := by
    unfold specCumulativeBounceTime COEFFICIENT_OF_RESTITUTION at *
    rw [hF]
    rw [div_le_iff₀ (by norm_num : (0:ℝ) < 1 - 0.5)]
    rw [sub_le_comm, le_div_iff₀ hFpos]
    constructor <;> intro h <;> nlinarith
  rw [harith]
  unfold numberOfBouncesInPeriod
  rw [Int.le_floor]
  push_cast
  rw [le_div_iff_of_neg hlogr]
  rw [← Real.log_pow]
  rw [Real.log_le_log_iff hu0 hq]

/-- Helper: pin down numberOfBouncesInPeriod from two cumulative-time bounds. -/
lemma numberOfBouncesInPeriod_eq (v p : ℝ) (n : ℕ) (hv : 0 < v)
    (hps : p < timeToStillness v)
    (hlow : specCumulativeBounceTime v n ≤ p)
    (hhigh : p < specCumulativeBounceTime v (n + 1)) :
    numberOfBouncesInPeriod v p = n := by
  have h1 := (specCumulativeBounceTime_le_iff v p hv hps n).mp hlow
  have h2 : ¬ ((n : ℤ) + 1 ≤ numberOfBouncesInPeriod v p) := by
    intro hc
    have := (specCumulativeBounceTime_le_iff v p hv hps (n + 1)).mpr (by push_cast; omega)
    linarith
  omega

/-- C1: timeForNBounces is claimed to be the finite geometric sum
flightTimeThisBounce v * (1 - r ^ n) / (1 - r); the code instead computes
flightTimeThisBounce v * (1 - r) ^ n / (1 - r), contradicting its own
comment.  At reboundVelocity 1000 and n = 2 bounces the code returns 1 while
the geometric sum of the first two flight times is 2 + 1 = 3. -/
theorem timeForNBounces_code_vs_geometric_sum :
    timeForNBounces 1000 2 = 1 ∧ specCumulativeBounceTime 1000 2 = 3 := by
  constructor
  · unfold timeForNBounces COEFFICIENT_OF_RESTITUTION
    rw [if_neg (by norm_num), flightTimeThisBounce_eq]
    norm_num
  · unfold specCumulativeBounceTime COEFFICIENT_OF_RESTITUTION
    rw [flightTimeThisBounce_eq]
    norm_num

/-- C7: for every reboundVelocity v greater than 0 and every period with
0 at most period and period strictly less than timeToStillness v,
numberOfBouncesInPeriod v period is the largest integer n such that the
cumulative time of the first n bounces, the geometric sum
flightTimeThisBounce v * (1 - r ^ n) / (1 - r), does not exceed the period;
in particular it is 0 for any period below flightTimeThisBounce v and
exactly 1 when the period equals flightTimeThisBounce v. -/
theorem numberOfBouncesInPeriod_largest_fit (v p : ℝ) (hv : 0 < v)
    (hp0 : 0 ≤ p) (hps : p < timeToStillness v) :
    0 ≤ numberOfBouncesInPeriod v p ∧
    specCumulativeBounceTime v (numberOfBouncesInPeriod v p).toNat ≤ p ∧
    (∀ m : ℕ, specCumulativeBounceTime v m ≤ p →
      (m : ℤ) ≤ numberOfBouncesInPeriod v p) ∧
    (p < flightTimeThisBounce v → numberOfBouncesInPeriod v p = 0) ∧
    (p = flightTimeThisBounce v → numberOfBouncesInPeriod v p = 1) := by
  have hiff := specCumulativeBounceTime_le_iff v p hv hps
  have hsum0 : specCumulativeBounceTime v 0 = 0 := by
    unfold specCumulativeBounceTime
    norm_num
  have hsum1 : specCumulativeBounceTime v 1 = flightTimeThisBounce v := by
    unfold specCumulativeBounceTime COEFFICIENT_OF_RESTITUTION
    norm_num
  have hsum2 : specCumulativeBounceTime v 2 = (3 / 2) * flightTimeThisBounce v := by
    unfold specCumulativeBounceTime COEFFICIENT_OF_RESTITUTION
    rw [flightTimeThisBounce_eq]
    norm_num
    ring
  have h0 : (0 : ℤ) ≤ numberOfBouncesInPeriod v p := by
    have := (hiff 0).mp (by rw [hsum0]; exact hp0)
    omega
  refine ⟨h0, ?_, fun m hm => (hiff m).mp hm, ?_, ?_⟩
  · have : ((numberOfBouncesInPeriod v p).toNat : ℤ) ≤ numberOfBouncesInPeriod v p := by
      omega
    exact (hiff _).mpr this
  · intro hlt
    have h1 : ¬ ((1 : ℤ) ≤ numberOfBouncesInPeriod v p) := by
      intro hc
      have := (hiff 1).mpr (by exact_mod_cast hc)
      rw [hsum1] at this
      linarith
    omega
  · intro heq
    have hFpos : 0 < flightTimeThisBounce v := by
      rw [flightTimeThisBounce_eq]; positivity
    have h1 : (1 : ℤ) ≤ numberOfBouncesInPeriod v p :=
      (hiff 1).mp (by rw [hsum1, heq])
    have h2 : ¬ ((2 : ℤ) ≤ numberOfBouncesInPeriod v p) := by
      intro hc
      have := (hiff 2).mpr (by exact_mod_cast hc)
      rw [hsum2, heq] at this
      linarith
    omega

/-- C7 witness: reboundVelocity 1000, period 1. -/
theorem numberOfBouncesInPeriod_largest_fit_witness :
    (0:ℝ) < 1000 ∧ (0:ℝ) ≤ 1 ∧ (1:ℝ) < timeToStillness 1000 ∧
    (0 ≤ numberOfBouncesInPeriod 1000 1 ∧
      specCumulativeBounceTime 1000 (numberOfBouncesInPeriod 1000 1).toNat ≤ 1 ∧
      (∀ m : ℕ, specCumulativeBounceTime 1000 m ≤ 1 →
        (m : ℤ) ≤ numberOfBouncesInPeriod 1000 1) ∧
      ((1:ℝ) < flightTimeThisBounce 1000 → numberOfBouncesInPeriod 1000 1 = 0) ∧
      ((1:ℝ) = flightTimeThisBounce 1000 → numberOfBouncesInPeriod 1000 1 = 1)) := by
  have hts : timeToStillness 1000 = 4 := by rw [timeToStillness_eq]; norm_num
  exact ⟨by norm_num, by norm_num, by rw [hts]; norm_num,
    numberOfBouncesInPeriod_largest_fit 1000 1 (by norm_num) (by norm_num)
      (by rw [hts]; norm_num)⟩

/-- C9: horizontal velocity is invariant across the integrator regardless of
how many bounces occur: for every ball and every dt, the result of
simulateSingleBall has the same vx component as the input (this holds
unconditionally, hence in particular for every valid ball and dt at least 0). -/
theorem simulateSingleBall_vx_invariant (b : Ball) (dt : ℝ) :
    (simulateSingleBall b dt).vx = b.vx := by
  unfold simulateSingleBall simulateAfterImpact simulateWithoutImpacts
  dsimp only
  split_ifs <;> rfl

/-- C10: whenever no impact occurs within the tick (timeToImpact b > dt),
simulateSingleBall conserves the vertical mechanical energy
(1/2) vy^2 - GRAVITY * y: the free-fall branch is exact kinematics. -/
theorem simulateSingleBall_freefall_energy (b : Ball) (dt : ℝ)
    (h : timeToImpact b > dt) :
    0.5 * (simulateSingleBall b dt).vy ^ 2 - GRAVITY * (simulateSingleBall b dt).y =
      0.5 * b.vy ^ 2 - GRAVITY * b.y := by
  unfold simulateSingleBall
  rw [if_pos h]
  unfold simulateWithoutImpacts
  ring

/-- C10 witness: the drop from height 2000 over 1 second is impact-free and
conserves vertical energy. -/
theorem simulateSingleBall_freefall_energy_witness :
    timeToImpact ⟨0, 2000, 0, 0⟩ > 1 ∧
    0.5 * (simulateSingleBall ⟨0, 2000, 0, 0⟩ 1).vy ^ 2 -
        GRAVITY * (simulateSingleBall ⟨0, 2000, 0, 0⟩ 1).y =
      0.5 * (0 : ℝ) ^ 2 - GRAVITY * 2000 :=
  ⟨by rw [timeToImpact_drop]; norm_num,
    simulateSingleBall_freefall_energy ⟨0, 2000, 0, 0⟩ 1
      (by rw [timeToImpact_drop]; norm_num)⟩

/-- C5: when an impact occurs within the tick and the rebound velocity
settles before the tick ends, simulateSingleBall returns exactly
(x + vx * dt, 0, vx, 0): the vertical state is pinned to rest, the
horizontal motion continues unabated. -/
theorem simulateSingleBall_settles_exact (b : Ball) (dt : ℝ)
    (hy : 0 ≤ b.y) (hdt : 0 ≤ dt)
    (himp : timeToImpact b ≤ dt)
    (hst : timeToStillness (-COEFFICIENT_OF_RESTITUTION *
        (b.vy + GRAVITY * timeToImpact b)) < dt - timeToImpact b) :
    simulateSingleBall b dt = ⟨b.x + b.vx * dt, 0, b.vx, 0⟩ := by
  unfold simulateSingleBall
  dsimp only
  rw [if_neg (not_lt.mpr himp)]
  unfold simulateAfterImpact simulateWithoutImpacts
  dsimp only
  rw [if_pos hst]
  congr 1
  ring

/-- C5 witness: the drop from height 2000 advanced by 10 seconds settles. -/
theorem simulateSingleBall_settles_exact_witness :
    simulateSingleBall ⟨0, 2000, 0, 0⟩ 10 = ⟨0 + 0 * 10, 0, 0, 0⟩ :=
  simulateSingleBall_settles_exact ⟨0, 2000, 0, 0⟩ 10 (by norm_num) (by norm_num)
    (by rw [timeToImpact_drop]; norm_num)
    (by
      rw [timeToImpact_drop, timeToStillness_eq]
      unfold COEFFICIENT_OF_RESTITUTION GRAVITY
      norm_num)

/-- C6: the ball (0, 2000, 0, 0) advanced by 3 seconds with gravity -1000 and
restitution 0.5 falls for 2 seconds, bounces once, and comes to the
stationary peak of the next bounce generation at height 2000 * r ^ 2 = 500. -/
theorem simulateSingleBall_scenarioC :
    simulateSingleBall ⟨0, 2000, 0, 0⟩ 3 =
      ⟨0, 2000 * COEFFICIENT_OF_RESTITUTION ^ (2 : ℕ), 0, 0⟩ := by
  have hb : numberOfBouncesInPeriod 1000 1 = 0 :=
    numberOfBouncesInPeriod_eq 1000 1 0 (by norm_num)
      (by rw [timeToStillness_eq]; norm_num)
      (by
        unfold specCumulativeBounceTime COEFFICIENT_OF_RESTITUTION
        norm_num)
      (by
        unfold specCumulativeBounceTime COEFFICIENT_OF_RESTITUTION
        rw [flightTimeThisBounce_eq]
        norm_num)
  unfold simulateSingleBall
  rw [timeToImpact_drop]
  dsimp only
  rw [if_neg (by norm_num : ¬ ((2 : ℝ) > 3))]
  unfold simulateAfterImpact simulateWithoutImpacts
  dsimp only
  norm_num [COEFFICIENT_OF_RESTITUTION, GRAVITY, timeToStillness_eq, hb,
    timeForNBounces, Ball.mk.injEq]

/-- C2: the y-at-least-0 floor invariant fails.  The launch (0, 0, 0, 2000)
advanced by 7.5 seconds bounces after 4 seconds with rebound velocity 1000;
the remaining 3.5 seconds hold exactly 3 bounces, but the buggy
timeForNBounces reports only 0.5 seconds for them instead of 3.5, so the
final no-impact sub-step runs for 3 seconds at rebound velocity 125 and
carries the ball far below the floor, to y = -4125. -/
theorem simulateSingleBall_floor_violation :
    simulateSingleBall ⟨0, 0, 0, 2000⟩ (15 / 2) = ⟨0, -4125, 0, -2875⟩ ∧
    (simulateSingleBall ⟨0, 0, 0, 2000⟩ (15 / 2)).y < 0 := by
  have hb : numberOfBouncesInPeriod 1000 (7 / 2) = 3 :=
    numberOfBouncesInPeriod_eq 1000 (7 / 2) 3 (by norm_num)
      (by rw [timeToStillness_eq]; norm_num)
      (by
        unfold specCumulativeBounceTime COEFFICIENT_OF_RESTITUTION
        rw [flightTimeThisBounce_eq]
        norm_num)
      (by
        unfold specCumulativeBounceTime COEFFICIENT_OF_RESTITUTION
        rw [flightTimeThisBounce_eq]
        norm_num)
  have htf : timeForNBounces 1000 3 = 1 / 2 := by
    unfold timeForNBounces COEFFICIENT_OF_RESTITUTION
    rw [if_neg (by norm_num), flightTimeThisBounce_eq]
    rw [show (3 : ℤ) = ((3 : ℕ) : ℤ) from rfl, zpow_natCast]
    norm_num
  have hpow : COEFFICIENT_OF_RESTITUTION ^ (3 : ℤ) = (1 / 8 : ℝ) := by
    unfold COEFFICIENT_OF_RESTITUTION
    rw [show (3 : ℤ) = ((3 : ℕ) : ℤ) from rfl, zpow_natCast]
    norm_num
  have hmain : simulateSingleBall ⟨0, 0, 0, 2000⟩ (15 / 2) = ⟨0, -4125, 0, -2875⟩ := by
    unfold simulateSingleBall
    rw [timeToImpact_launch]
    dsimp only
    rw [if_neg (by norm_num : ¬ ((4 : ℝ) > 15 / 2))]
    unfold simulateAfterImpact simulateWithoutImpacts
    dsimp only
    norm_num [COEFFICIENT_OF_RESTITUTION, GRAVITY, timeToStillness_eq]
    norm_num [show (15 : ℝ) / 2 - 4 = 7 / 2 by norm_num, hb, htf, hpow,
      COEFFICIENT_OF_RESTITUTION, Ball.mk.injEq]
  exact ⟨hmain, by rw [hmain]; norm_num⟩

/-- C8 counterexample: for the ball (0, 0, 0, 2000), launched upward from the
floor, t = 0 is already a non-negative root of 0 = y + vy t + 0.5 g t^2, yet
timeToImpact returns 4, so it is not the smallest non-negative root. -/
theorem timeToImpact_not_smallest_nonneg_root :
    timeToImpact ⟨0, 0, 0, 2000⟩ = 4 ∧
    (0 : ℝ) + 2000 * 0 + 0.5 * GRAVITY * (0 : ℝ) ^ 2 = 0 ∧
    ¬ timeToImpact ⟨0, 0, 0, 2000⟩ ≤ 0 := by
  refine ⟨timeToImpact_launch, by norm_num, ?_⟩
  rw [timeToImpact_launch]
  norm_num

/-- C8 amended: for a ball with y at least 0, timeToImpact returns a
non-negative root of 0 = y + vy t + 0.5 g t^2; when y is strictly positive it
is the smallest non-negative root, but when y = 0 and vy is positive it is
the return-to-floor time flightTimeThisBounce vy, not the smallest
non-negative root (which is 0). -/
theorem timeToImpact_root_characterization (b : Ball) (hy : 0 ≤ b.y) :
    b.y + b.vy * timeToImpact b + 0.5 * GRAVITY * timeToImpact b ^ 2 = 0 ∧
    0 ≤ timeToImpact b ∧
    (0 < b.y → ∀ s : ℝ, 0 ≤ s →
      b.y + b.vy * s + 0.5 * GRAVITY * s ^ 2 = 0 → timeToImpact b ≤ s) ∧
    (b.y = 0 → 0 < b.vy → timeToImpact b = flightTimeThisBounce b.vy) := by
  have harg : b.vy * b.vy - 2 * GRAVITY * b.y = b.vy * b.vy + 2000 * b.y := by
    unfold GRAVITY
    ring
  have hargnn : 0 ≤ b.vy * b.vy + 2000 * b.y := by nlinarith
  set D := Real.sqrt (b.vy * b.vy + 2000 * b.y) with hDdef
  have hDnn : 0 ≤ D := Real.sqrt_nonneg _
  have hD2 : D ^ 2 = b.vy * b.vy + 2000 * b.y := Real.sq_sqrt hargnn
  have habs : |b.vy| ≤ D := by
    rw [hDdef, ← Real.sqrt_sq_eq_abs]
    exact Real.sqrt_le_sqrt (by nlinarith)
  have htt : timeToImpact b = (b.vy + D) / 1000 := by
    unfold timeToImpact GRAVITY
    rw [show b.vy * b.vy - 2 * (-1000 : ℝ) * b.y = b.vy * b.vy + 2000 * b.y by ring]
    rw [← hDdef]
    rw [show -b.vy - D = -(b.vy + D) by ring, show (-1000 : ℝ) = -(1000) by norm_num,
      neg_div_neg_eq]
  have hG : GRAVITY = (-1000 : ℝ) := rfl
  have hroot_t : b.y + b.vy * timeToImpact b + 0.5 * GRAVITY * timeToImpact b ^ 2 = 0 := by
    rw [htt, hG]
    field_simp
    nlinarith [hD2]
  have hnn_t : 0 ≤ timeToImpact b := by
    rw [htt]
    apply div_nonneg _ (by norm_num)
    have := neg_abs_le b.vy
    linarith
  refine ⟨hroot_t, hnn_t, ?_, ?_⟩
  · intro hypos s hs hroot
    by_contra hlt
    push_neg at hlt
    have hfac : (s - timeToImpact b) *
        (b.vy + 0.5 * GRAVITY * (s + timeToImpact b)) = 0 := by
      rw [hG] at hroot hroot_t ⊢
      linear_combination hroot - hroot_t
    rcases mul_eq_zero.mp hfac with h | h
    · have : s = timeToImpact b := by linarith [sub_eq_zero.mp h]
      linarith
    · have hs_eq : s = (b.vy - D) / 1000 := by
        rw [hG] at h
        rw [htt] at h
        field_simp at h ⊢
        linarith
      have hDgt : b.vy < D := by
        calc b.vy ≤ |b.vy| := le_abs_self _
          _ < D := by
            rw [hDdef, ← Real.sqrt_sq_eq_abs]
            exact Real.sqrt_lt_sqrt (sq_nonneg _) (by nlinarith)
      have : s < 0 := by
        rw [hs_eq]
        apply div_neg_of_neg_of_pos (by linarith) (by norm_num)
      linarith
  · intro h0 hvy
    have hDv : D = b.vy := by
      rw [hDdef, h0]
      rw [show b.vy * b.vy + 2000 * 0 = b.vy * b.vy by ring]
      exact Real.sqrt_mul_self hvy.le
    rw [htt, hDv, flightTimeThisBounce_eq]
    ring

/-- C8 witness: the launched ball (0, 0, 0, 2000) satisfies y at least 0 and
the amended characterization. -/
theorem timeToImpact_root_characterization_witness :
    (0 : ℝ) ≤ (0 : ℝ) ∧
    ((0 : ℝ) + 2000 * timeToImpact ⟨0, 0, 0, 2000⟩ +
        0.5 * GRAVITY * timeToImpact ⟨0, 0, 0, 2000⟩ ^ 2 = 0 ∧
      0 ≤ timeToImpact ⟨0, 0, 0, 2000⟩ ∧
      ((0 : ℝ) < 0 → ∀ s : ℝ, 0 ≤ s →
        (0 : ℝ) + 2000 * s + 0.5 * GRAVITY * s ^ 2 = 0 →
          timeToImpact ⟨0, 0, 0, 2000⟩ ≤ s) ∧
      ((0 : ℝ) = 0 → (0 : ℝ) < 2000 →
        timeToImpact ⟨0, 0, 0, 2000⟩ = flightTimeThisBounce 2000)) :=
  ⟨le_refl 0, timeToImpact_root_characterization ⟨0, 0, 0, 2000⟩ (le_refl 0)⟩

namespace JsSem

@[simp] lemma add_some (a b : ℝ) : add (some a) (some b) = some (a + b) := rfl

@[simp] lemma add_none_left (x : Num) : add none x = none := rfl

@[simp] lemma add_none_right (x : Num) : add x none = none := by cases x <;> rfl

@[simp] lemma sub_some (a b : ℝ) : sub (some a) (some b) = some (a - b) := rfl

@[simp] lemma sub_none_left (x : Num) : sub none x = none := rfl

@[simp] lemma sub_none_right (x : Num) : sub x none = none := by cases x <;> rfl

@[simp] lemma mul_some (a b : ℝ) : mul (some a) (some b) = some (a * b) := rfl

@[simp] lemma mul_none_left (x : Num) : mul none x = none := rfl

@[simp] lemma mul_none_right (x : Num) : mul x none = none := by cases x <;> rfl

@[simp] lemma neg_some (a : ℝ) : neg (some a) = some (-a) := rfl

@[simp] lemma neg_none : neg none = none := rfl

@[simp] lemma div_some (a b : ℝ) :
    div (some a) (some b) = if b = 0 then none else some (a / b) := rfl

@[simp] lemma div_none_left (x : Num) : div none x = none := rfl

@[simp] lemma div_none_right (x : Num) : div x none = none := by cases x <;> rfl

@[simp] lemma sqrt_some (a : ℝ) :
    sqrt (some a) = if a < 0 then none else some (Real.sqrt a) := rfl

@[simp] lemma sqrt_none : sqrt none = none := rfl

@[simp] lemma log_some (a : ℝ) :
    log (some a) = if a ≤ 0 then none else some (Real.log a) := rfl

@[simp] lemma log_none : log none = none := rfl

@[simp] lemma pow_none_right (x : Num) : pow x none = none := by cases x <;> rfl

@[simp] lemma floor_some (a : ℝ) : floor (some a) = some ((⌊a⌋ : ℤ) : ℝ) := rfl

@[simp] lemma floor_none : floor none = none := rfl

@[simp] lemma lt_some (a b : ℝ) : lt (some a) (some b) ↔ a < b := Iff.rfl

@[simp] lemma lt_none_left (x : Num) : ¬ lt none x := by cases x <;> exact id

@[simp] lemma lt_none_right (x : Num) : ¬ lt x none := by cases x <;> exact id

@[simp] lemma eqNum_some (a b : ℝ) : eqNum (some a) (some b) ↔ a = b := Iff.rfl

@[simp] lemma eqNum_none_left (x : Num) : ¬ eqNum none x := by cases x <;> exact id

@[simp] lemma eqNum_none_right (x : Num) : ¬ eqNum x none := by cases x <;> exact id

end JsSem

/-- C3 counterexample: timeToImpact applied to a ball whose y component is
NaN returns NaN as its result; the NaN is silently propagated into the
output, and no error is signalled (the source function has no error path at
all). -/
theorem timeToImpact_nan_output_concrete :
    JsSem.timeToImpact ⟨some 0, none, some 0, some 0⟩ = none := by
  simp [JsSem.timeToImpact]

/-- C3 amended: the trajectory functions of simulation.ts are total and
signal no error; a NaN in the y or vy component propagates, making
timeToImpact return NaN and simulateSingleBall return a ball whose y
component is NaN, for any elapsed time. -/
theorem timeToImpact_nan_propagates (b : JsSem.Ball) (s : JsSem.Num)
    (h : b.y = none ∨ b.vy = none) :
    JsSem.timeToImpact b = none ∧ (JsSem.simulateSingleBall b s).y = none := by
  have htti : JsSem.timeToImpact b = none := by
    rcases h with h | h <;> simp [JsSem.timeToImpact, h]
  refine ⟨htti, ?_⟩
  unfold JsSem.simulateSingleBall
  rw [htti]
  dsimp only
  rw [if_neg (JsSem.lt_none_right s)]
  unfold JsSem.simulateAfterImpact JsSem.simulateWithoutImpacts
    JsSem.timeToStillness JsSem.numberOfBouncesInPeriod
    JsSem.timeForNBounces JsSem.flightTimeThisBounce
  simp

/-- C3 witness: a concrete ball with NaN y component and elapsed time 1. -/
theorem timeToImpact_nan_propagates_witness :
    ((none : JsSem.Num) = none ∨ (some (3:ℝ) : JsSem.Num) = none) ∧
    (JsSem.timeToImpact ⟨some 1, none, some 2, some 3⟩ = none ∧
      (JsSem.simulateSingleBall ⟨some 1, none, some 2, some 3⟩ (some 1)).y = none) :=
  ⟨Or.inl rfl,
    timeToImpact_nan_propagates ⟨some 1, none, some 2, some 3⟩ (some 1) (Or.inl rfl)⟩

/-- C4: advancing a ball at rest on the floor (0, 0, 0, 0) by dt = 0 is not
the identity: timeToImpact is 0, so the impact branch runs, the rebound
velocity is 0, the stillness test 0 < 0 fails, and numberOfBouncesInPeriod
divides 0 by the zero flight time, producing NaN; the result is
(NaN, NaN, 0, NaN), not the unchanged ball. -/
theorem simulateSingleBall_rest_zero_dt_nan :
    JsSem.simulateSingleBall ⟨some 0, some 0, some 0, some 0⟩ (some 0) =
      ⟨none, none, some 0, none⟩ ∧
    JsSem.simulateSingleBall ⟨some 0, some 0, some 0, some 0⟩ (some 0) ≠
      ⟨some 0, some 0, some 0, some 0⟩ := by
  have hmain : JsSem.simulateSingleBall ⟨some 0, some 0, some 0, some 0⟩ (some 0) =
      ⟨none, none, some 0, none⟩ := by
    unfold JsSem.simulateSingleBall JsSem.timeToImpact
      JsSem.simulateAfterImpact JsSem.simulateWithoutImpacts
      JsSem.timeToStillness JsSem.numberOfBouncesInPeriod
      JsSem.timeForNBounces JsSem.flightTimeThisBounce
    norm_num [GRAVITY, COEFFICIENT_OF_RESTITUTION, Real.sqrt_zero]
  refine ⟨hmain, ?_⟩
  rw [hmain]
  intro hc
  exact Option.noConfusion (congrArg JsSem.Ball.y hc)
